import Mathlib

/-!
Verification of the governance and connection-pool layer of the
`lakebase-mcp` server against its specification.

The Lean definitions below are shallow embeddings of the Python source:
* `server/governance/sql_guard.py`  — statement classification and the SQL governor
* `server/governance/tool_guard.py` — tool categories, profiles and access policy
* `server/governance/policy.py`     — governance config and policy composition
* `server/db.py`                    — retrying connection acquisition and query execution

The third-party SQL parser (`sqlglot`) is not part of the repository; the
classifier is therefore embedded with the parser's outcome as an explicit
parameter (`Except Unit (List (Option ParsedStmt))`, mirroring
`sqlglot.parse` which returns a list of optional statement nodes or raises
`ParseError`).  Everything downstream of the parse result — the expression
map, the command dispatch, the regex fallback, the governor — is translated
directly from the source.
-/

namespace LakebaseMCP

/-- The 17 statement kinds of `SQLStatementType` in `sql_guard.py`.
`show` and some others are Lean keywords, hence the `Stmt` suffixes. -/
inductive SQLStatementType
  | select
  | insert
  | update
  | delete
  | create
  | drop
  | alter
  | merge
  | truncate
  | grant
  | revoke
  | useStmt
  | showStmt
  | describe
  | explain
  | setStmt
  | call
deriving DecidableEq

/-- The `value` string of each enum member (`SELECT = "select"` etc.). -/
def SQLStatementType.value : SQLStatementType → String
  | .select => "select"
  | .insert => "insert"
  | .update => "update"
  | .delete => "delete"
  | .create => "create"
  | .drop => "drop"
  | .alter => "alter"
  | .merge => "merge"
  | .truncate => "truncate"
  | .grant => "grant"
  | .revoke => "revoke"
  | .useStmt => "use"
  | .showStmt => "show"
  | .describe => "describe"
  | .explain => "explain"
  | .setStmt => "set"
  | .call => "call"

/-- The 17 members in declaration order (iteration order of the enum). -/
def allStatementTypesList : List SQLStatementType :=
  [.select, .insert, .update, .delete, .create, .drop, .alter, .merge,
   .truncate, .grant, .revoke, .useStmt, .showStmt, .describe, .explain,
   .setStmt, .call]

/-- All 17 members, i.e. Python's `set(SQLStatementType)`. -/
def allStatementTypes : Finset SQLStatementType :=
  { .select, .insert, .update, .delete, .create, .drop, .alter, .merge,
    .truncate, .grant, .revoke, .useStmt, .showStmt, .describe, .explain,
    .setStmt, .call }

/-- `PROFILES["read_only"]` from `sql_guard.py`. -/
def readOnlyProfile : Finset SQLStatementType :=
  { .select, .showStmt, .describe, .explain }

/-- `PROFILES["analyst"]` from `sql_guard.py`. -/
def analystProfile : Finset SQLStatementType :=
  { .select, .showStmt, .describe, .explain, .insert, .setStmt }

/-- `PROFILES["developer"]` from `sql_guard.py`. -/
def developerProfile : Finset SQLStatementType :=
  { .select, .insert, .update, .delete, .create, .alter, .showStmt,
    .describe, .explain, .setStmt, .call }

/-- `PROFILES["admin"] = set(SQLStatementType)`. -/
def adminProfile : Finset SQLStatementType := allStatementTypes

/-- The `PROFILES` dict of `sql_guard.py` as an association list. -/
def SQL_PROFILES : List (String × Finset SQLStatementType) :=
  [("read_only", readOnlyProfile),
   ("analyst", analystProfile),
   ("developer", developerProfile),
   ("admin", adminProfile)]

/-- The `SQLCheckResult` dataclass of `sql_guard.py`. -/
structure SQLCheckResult where
  allowed : Bool
  statement_type : Option SQLStatementType := none
  error_message : Option String := none
  parsed_types : List SQLStatementType := []
deriving DecidableEq

/-- A single-quote character, used verbatim in the denial message. -/
def squote : String := String.singleton (Char.ofNat 39)

/-- Lexicographic (code-point) order on character lists: the order Python
uses to compare strings in `sorted`. -/
def lexLeChars : List Char → List Char → Bool
  | [], _ => true
  | _ :: _, [] => false
  | a :: as, b :: bs => a.toNat < b.toNat || (a = b && lexLeChars as bs)

/-- Lexicographic (code-point) order on strings. -/
def lexLe (s t : String) : Bool := lexLeChars s.toList t.toList

/-- The 17 members in ascending alphabetical order of their `value`
strings (verified sorted in `valueOrder_pairwise_sorted` below). -/
def valueOrderedTypes : List SQLStatementType :=
  [.alter, .call, .create, .delete, .describe, .drop, .explain, .grant,
   .insert, .merge, .revoke, .select, .setStmt, .showStmt, .truncate,
   .update, .useStmt]

/-- `sorted(t.value for t in self._allowed)` in `SQLGovernor.check`:
the `value` strings of the exactly allowed members in ascending
lexicographic order.  Since the 17 `value` strings are pairwise distinct,
filtering the alphabetically ordered member list produces precisely the
output of Python's `sorted` on the set's values. -/
def sortedAllowedValues (allowed : Finset SQLStatementType) : List String :=
  (valueOrderedTypes.filter (fun t => decide (t ∈ allowed))).map
    SQLStatementType.value

/-- The denial message built in `SQLGovernor.check` for a disallowed type. -/
def denyMessage (t : SQLStatementType) (allowed : Finset SQLStatementType) : String :=
  "Statement type " ++ squote ++ t.value ++ squote ++
    " is not allowed. Permitted types: " ++
    String.intercalate ", " (sortedAllowedValues allowed)

/-- The `SQLGovernor` class: it holds the allowed set (`self._allowed`). -/
structure SQLGovernor where
  allowed : Finset SQLStatementType

/-- `SQLGovernor.check`, factored over the classified type list
(`types = self.classify(sql)`); the loop `for stmt_type in types` stops at
the first type outside `self._allowed`, which is exactly `List.find?`. -/
def SQLGovernor.check (g : SQLGovernor) (types : List SQLStatementType) : SQLCheckResult :=
  if types.isEmpty then
    { allowed := false,
      error_message := some "Could not determine SQL statement type." }
  else
    match types.find? (fun t => !(decide (t ∈ g.allowed))) with
    | some t =>
        { allowed := false,
          statement_type := some t,
          error_message := some (denyMessage t g.allowed),
          parsed_types := types }
    | none =>
        { allowed := true,
          statement_type := types.head?,
          parsed_types := types }

/-! ### Statement classifier (`SQLGovernor.classify` et al.) -/

/-- The sqlglot node kinds that `_classify_expression` distinguishes: the
keys of `_EXPRESSION_MAP`, the `Command` case (whose `this` attribute is a
string or something else), `SetItem`/`Set`, `Describe`, `Use`, and a
catch-all for unrecognized node kinds (which classify to `None`). -/
inductive NodeKind
  | selectNode
  | unionNode
  | intersectNode
  | exceptNode
  | insertNode
  | updateNode
  | deleteNode
  | createNode
  | dropNode
  | alterNode
  | alterColumnNode
  | mergeNode
  | truncateTableNode
  | grantNode
  | commandNode (this : Option String)
  | setItemNode
  | setNode
  | describeNode
  | useNode
  | otherNode
deriving DecidableEq

/-- A parsed statement as the classifier consumes it: its sqlglot node kind
plus its re-rendered SQL text (`stmt.sql(dialect="postgres")`), which feeds
the per-statement regex fallback. -/
structure ParsedStmt where
  kind : NodeKind
  rendered : String
deriving DecidableEq

/-- Python's `str.upper()` (ASCII case suffices for the SQL keywords),
as a character-list transformation. -/
def pyUpperChars (s : String) : List Char := s.toList.map Char.toUpper

/-- Python whitespace as stripped by `str.strip()`. -/
def pyWhitespaceChar (c : Char) : Bool :=
  c = ' ' || c = Char.ofNat 9 || c = Char.ofNat 10 || c = Char.ofNat 13 ||
  c = Char.ofNat 11 || c = Char.ofNat 12

/-- Python's `str.strip()`. -/
def pyStrip (s : String) : String :=
  String.mk (((s.toList.dropWhile pyWhitespaceChar).reverse.dropWhile
    pyWhitespaceChar).reverse)

/-- A regex word character (`\w` over the ASCII keywords involved). -/
def isWordChar (c : Char) : Bool := c.isAlphanum || c = '_'

/-- `\b` right after a keyword: end of input or a non-word character. -/
def wordBoundaryAfter : List Char → Bool
  | [] => true
  | c :: _ => !isWordChar c

/-- `re.match(r"^KW\b", s)`: `kw` at the start of `s`, followed by a word
boundary. -/
def matchesAtStart (kw : List Char) (s : List Char) : Bool :=
  kw.isPrefixOf s && wordBoundaryAfter (s.drop kw.length)

/-- The `.*\bKW\b` tail of the CTE patterns (with `re.DOTALL`): scan for an
occurrence of `kw` preceded by a non-word character (`prev` carries the
character before the current position) and followed by a word boundary. -/
def scanForWord (kw : List Char) : Char → List Char → Bool
  | _, [] => false
  | prev, c :: rest =>
      (!isWordChar prev && matchesAtStart kw (c :: rest)) ||
        scanForWord kw c rest

/-- `re.match(r"^WITH\b.*\bKW\b", s, re.DOTALL)`: `WITH` with a boundary at
the start, then `kw` somewhere later with boundaries on both sides.  After
the leading `WITH` the previous character seen by the scan is its final
letter. -/
def matchesWithPattern (kw : List Char) (s : List Char) : Bool :=
  matchesAtStart "WITH".toList s && scanForWord kw 'H' (s.drop 4)

/-- `SQLGovernor._regex_fallback`: try the ordered pattern list against
`sql.strip().upper()` and return the statement type of the first match. -/
def regexFallback (sql : String) : Option SQLStatementType :=
  let stripped := pyUpperChars (pyStrip sql)
  if matchesAtStart "SELECT".toList stripped then some .select
  else if matchesAtStart "INSERT".toList stripped then some .insert
  else if matchesAtStart "UPDATE".toList stripped then some .update
  else if matchesAtStart "DELETE".toList stripped then some .delete
  else if matchesAtStart "CREATE".toList stripped then some .create
  else if matchesAtStart "DROP".toList stripped then some .drop
  else if matchesAtStart "ALTER".toList stripped then some .alter
  else if matchesAtStart "MERGE".toList stripped then some .merge
  else if matchesAtStart "TRUNCATE".toList stripped then some .truncate
  else if matchesAtStart "GRANT".toList stripped then some .grant
  else if matchesAtStart "REVOKE".toList stripped then some .revoke
  else if matchesAtStart "EXPLAIN".toList stripped then some .explain
  else if matchesAtStart "SHOW".toList stripped then some .showStmt
  else if matchesAtStart "DESCRIBE".toList stripped then some .describe
  else if matchesAtStart "SET".toList stripped then some .setStmt
  else if matchesAtStart "CALL".toList stripped then some .call
  else if matchesAtStart "USE".toList stripped then some .useStmt
  else if matchesWithPattern "SELECT".toList stripped then some .select
  else if matchesWithPattern "INSERT".toList stripped then some .insert
  else if matchesWithPattern "UPDATE".toList stripped then some .update
  else if matchesWithPattern "DELETE".toList stripped then some .delete
  else none

/-- `SQLGovernor._classify_expression`: the `_EXPRESSION_MAP` lookup, then
the `Command` dispatch on `node.this.upper()` (empty string when `this` is
not a string), then `SetItem`/`Set`, `Describe`, `Use`; `None` otherwise. -/
def classifyExpression : NodeKind → Option SQLStatementType
  | .selectNode => some .select
  | .unionNode => some .select
  | .intersectNode => some .select
  | .exceptNode => some .select
  | .insertNode => some .insert
  | .updateNode => some .update
  | .deleteNode => some .delete
  | .createNode => some .create
  | .dropNode => some .drop
  | .alterNode => some .alter
  | .alterColumnNode => some .alter
  | .mergeNode => some .merge
  | .truncateTableNode => some .truncate
  | .grantNode => some .grant
  | .commandNode this? =>
      let cmd := match this? with
        | some s => pyUpperChars s
        | none => []
      if cmd = "EXPLAIN".toList then some .explain
      else if cmd = "REVOKE".toList then some .revoke
      else if cmd = "SHOW".toList then some .showStmt
      else if cmd = "SET".toList then some .setStmt
      else if cmd = "CALL".toList then some .call
      else none
  | .setItemNode => some .setStmt
  | .setNode => some .setStmt
  | .describeNode => some .describe
  | .useNode => some .useStmt
  | .otherNode => none

/-- `SQLGovernor.classify`, with the outcome of `sqlglot.parse` passed
explicitly: on success each non-`None` statement is classified through
`_classify_expression`, falling back to the regex fallback on its rendered
SQL; on `ParseError` the regex fallback runs once over the whole input. -/
def classifyFrom (pr : Except Unit (List (Option ParsedStmt))) (sql : String) :
    List SQLStatementType :=
  match pr with
  | .ok statements =>
      statements.filterMap fun st =>
        match st with
        | none => none
        | some stmt =>
            match classifyExpression stmt.kind with
            | some t => some t
            | none => regexFallback stmt.rendered
  | .error _ =>
      match regexFallback sql with
      | some t => [t]
      | none => []

/-! ### Tool access control (`tool_guard.py`) -/

/-- The `TOOL_CATEGORIES` dict, in source order. -/
def TOOL_CATEGORIES : List (String × List String) :=
  [("sql_query",
    ["lakebase_execute_query",
     "lakebase_read_query",
     "lakebase_explain_query"]),
   ("schema_read",
    ["lakebase_list_schemas",
     "lakebase_list_tables",
     "lakebase_describe_table",
     "lakebase_object_tree"]),
   ("project_read",
    ["lakebase_list_projects",
     "lakebase_describe_project",
     "lakebase_get_connection_string"]),
   ("branch_read",
    ["lakebase_list_branches"]),
   ("branch_write",
    ["lakebase_create_branch",
     "lakebase_delete_branch"]),
   ("compute_read",
    ["lakebase_get_compute_status",
     "lakebase_get_compute_metrics"]),
   ("compute_write",
    ["lakebase_configure_autoscaling",
     "lakebase_configure_scale_to_zero",
     "lakebase_restart_compute",
     "lakebase_create_read_replica"]),
   ("migration",
    ["lakebase_prepare_migration",
     "lakebase_complete_migration"]),
   ("sync_read",
    ["lakebase_list_syncs"]),
   ("sync_write",
    ["lakebase_create_sync"]),
   ("quality",
    ["lakebase_profile_table"]),
   ("feature_read",
    ["lakebase_lookup_features",
     "lakebase_list_feature_tables"]),
   ("insight",
    ["lakebase_append_insight"])]

/-- The `TOOL_PROFILES` dict; `admin` is `list(TOOL_CATEGORIES.keys())`. -/
def TOOL_PROFILES : List (String × List String) :=
  [("read_only",
    ["sql_query", "schema_read", "project_read", "branch_read",
     "compute_read", "sync_read", "quality", "feature_read", "insight"]),
   ("analyst",
    ["sql_query", "schema_read", "project_read", "branch_read",
     "compute_read", "sync_read", "quality", "feature_read", "insight"]),
   ("developer",
    ["sql_query", "schema_read", "project_read", "branch_read",
     "branch_write", "compute_read", "compute_write", "migration",
     "sync_read", "sync_write", "quality", "feature_read", "insight"]),
   ("admin", TOOL_CATEGORIES.map Prod.fst)]

/-- The `ToolAccessPolicy` dataclass: both fields default to empty sets. -/
structure ToolAccessPolicy where
  allowed_tools : Finset String := ∅
  denied_tools : Finset String := ∅
deriving DecidableEq

/-- `ToolAccessPolicy.is_tool_allowed`.  The Python guard
`if self.denied_tools and tool_name in self.denied_tools` tests set
truthiness (non-emptiness, i.e. non-zero cardinality) before membership. -/
def ToolAccessPolicy.is_tool_allowed (p : ToolAccessPolicy) (tool_name : String) : Bool :=
  if p.denied_tools.card ≠ 0 ∧ tool_name ∈ p.denied_tools then false
  else if p.allowed_tools.card ≠ 0 ∧ tool_name ∉ p.allowed_tools then false
  else true

/-- `TOOL_CATEGORIES[cat]` with unknown categories skipped (`[]`). -/
def catTools (cat : String) : List String :=
  (TOOL_CATEGORIES.lookup cat).getD []

/-- `for cat in cats: if cat in TOOL_CATEGORIES: acc.update(TOOL_CATEGORIES[cat])`. -/
def unionCategories (cats : List String) (acc : Finset String) : Finset String :=
  cats.foldl (fun a cat => a ∪ (catTools cat).toFinset) acc

/-- `resolve_tool_policy` from `tool_guard.py`: profile categories, then
category overrides, then individual tool overrides; `None` or empty
arguments contribute nothing (Python truthiness). -/
def resolve_tool_policy (profile : Option String)
    (allowed_categories denied_categories allowed_tools denied_tools :
      Option (List String)) : ToolAccessPolicy :=
  let profCats : List String :=
    match profile with
    | some p => if p.isEmpty then [] else (TOOL_PROFILES.lookup p).getD []
    | none => []
  let allowedFromProfile := unionCategories profCats ∅
  let allowedWithCats := unionCategories (allowed_categories.getD []) allowedFromProfile
  let deniedFromCats := unionCategories (denied_categories.getD []) ∅
  { allowed_tools := allowedWithCats ∪ (allowed_tools.getD []).toFinset,
    denied_tools := deniedFromCats ∪ (denied_tools.getD []).toFinset }

/-! ### Governance config and policy composition (`policy.py`) -/

/-- The `GovernanceConfig` dataclass (all governance fields default to
`None`, the legacy write flag to `False`). -/
structure GovernanceConfig where
  sql_profile : Option String := none
  sql_allowed_types : Option (List String) := none
  sql_denied_types : Option (List String) := none
  tool_profile : Option String := none
  tool_allowed_categories : Option (List String) := none
  tool_denied_categories : Option (List String) := none
  tool_allowed_tools : Option (List String) := none
  tool_denied_tools : Option (List String) := none
  allow_write : Bool := false
deriving DecidableEq

/-- Python truthiness of an `Optional[str]` field. -/
def optStrTruthy : Option String → Bool
  | none => false
  | some s => !s.isEmpty

/-- Python truthiness of an `Optional[list]` field. -/
def optListTruthy : Option (List String) → Bool
  | none => false
  | some l => !l.isEmpty

/-- `has_governance = any([...])` over the eight governance fields in
`build_governance_policy`. -/
def GovernanceConfig.has_governance (c : GovernanceConfig) : Bool :=
  optStrTruthy c.sql_profile || optListTruthy c.sql_allowed_types ||
  optListTruthy c.sql_denied_types || optStrTruthy c.tool_profile ||
  optListTruthy c.tool_allowed_categories ||
  optListTruthy c.tool_denied_categories ||
  optListTruthy c.tool_allowed_tools || optListTruthy c.tool_denied_tools

/-- Python's `str.lower()` on a statement-type name, as characters. -/
def pyLowerChars (s : String) : List Char := s.toList.map Char.toLower

/-- `SQLStatementType(name)` for an already-lowercased name: the member
whose `value` matches, or `None` (`ValueError` in Python). -/
def SQLStatementType.ofValueChars (cs : List Char) : Option SQLStatementType :=
  allStatementTypesList.find? (fun t => t.value.toList = cs)

/-- The composed `GovernancePolicy`: the governor's allowed set
(`SQLGovernor(sql_allowed)`) plus the resolved tool policy. -/
structure GovernancePolicy where
  sql_allowed : Finset SQLStatementType
  tool_policy : ToolAccessPolicy
deriving DecidableEq

/-- `build_governance_policy` from `policy.py`.  Legacy mode (no
governance field set): the write flag selects all 17 types or the
`read_only` profile, with the permissive empty tool policy.  New mode:
profile base set, plus `sql_allowed_types`, minus `sql_denied_types`
(unknown names ignored), falling back to `read_only` when empty, and the
tool policy resolved from the tool fields. -/
def build_governance_policy (c : GovernanceConfig) : GovernancePolicy :=
  if c.has_governance then
    let base : Finset SQLStatementType :=
      match c.sql_profile with
      | some p => if p.isEmpty then ∅ else (SQL_PROFILES.lookup p).getD ∅
      | none => ∅
    let added := (c.sql_allowed_types.getD []).foldl
      (fun acc t =>
        match SQLStatementType.ofValueChars (pyLowerChars t) with
        | some st => insert st acc
        | none => acc) base
    let resolved := (c.sql_denied_types.getD []).foldl
      (fun acc t =>
        match SQLStatementType.ofValueChars (pyLowerChars t) with
        | some st => acc.erase st
        | none => acc) added
    { sql_allowed := if resolved = ∅ then readOnlyProfile else resolved,
      tool_policy := resolve_tool_policy c.tool_profile
        c.tool_allowed_categories c.tool_denied_categories
        c.tool_allowed_tools c.tool_denied_tools }
  else
    { sql_allowed := if c.allow_write then allStatementTypes else readOnlyProfile,
      tool_policy := {} }

/-! ### Resilient connection pool (`db.py`) -/

/-- The retry knobs of `LakebaseConfig` used by `LakebasePool.connection`:
`scale_to_zero_retry_attempts`, `scale_to_zero_retry_base_delay`,
`scale_to_zero_max_delay`.  The two delays are Python floats; they are
modelled as rationals (multiplication by `2**attempt` and `min` are exact
on floats in the relevant range). -/
structure RetryConfig where
  attempts : Nat
  baseDelay : ℚ
  maxDelay : ℚ
deriving DecidableEq

/-- `delay = min(base_delay * (2**attempt), max_delay)` in the retry loop. -/
def backoffDelay (cfg : RetryConfig) (attempt : Nat) : ℚ :=
  min (cfg.baseDelay * 2 ^ attempt) cfg.maxDelay

/-- Outcome of `LakebasePool.connection`: a connection, or the aggregated
`ConnectionError` carrying `last_error` raised after the loop. -/
inductive AcquireResult (α ε : Type) where
  | success (conn : α)
  | exhausted (lastError : Option ε)
deriving DecidableEq

/-- The `for attempt in range(attempts)` loop of `LakebasePool.connection`:
`i` is the current attempt index, the second argument the remaining
attempts, `last` the `last_error` accumulator.  Each transient failure
records its error and sleeps `backoffDelay` (the returned list is the
trace of sleeps); success returns immediately; an exhausted budget raises
with the last error. -/
def runAttempts (tryAcquire : Nat → Except ε α) (delay : Nat → ℚ) :
    Nat → Nat → Option ε → AcquireResult α ε × List ℚ
  | _, 0, last => (.exhausted last, [])
  | i, rem + 1, last =>
    match tryAcquire i with
    | .ok a => (.success a, [])
    | .error e =>
        ((runAttempts tryAcquire delay (i + 1) rem (some e)).1,
          delay i :: (runAttempts tryAcquire delay (i + 1) rem (some e)).2)

/-- `LakebasePool.connection`'s acquisition loop from attempt 0 with
`last_error = None`, using the configured exponential backoff. -/
def acquireConnection (cfg : RetryConfig) (tryAcquire : Nat → Except ε α) :
    AcquireResult α ε × List ℚ :=
  runAttempts tryAcquire (backoffDelay cfg) 0 cfg.attempts none

/-- Result of query execution: a (capped) list of row mappings, or the
single `{"affected_rows": cur.rowcount}` marker row. -/
inductive QueryResult (α : Type) where
  | rows (rs : List α)
  | affected (n : Int)
deriving DecidableEq

/-- `effective_max = max_rows or config.max_rows`: Python truthiness makes
`None` *and* `0` fall back to the configured default. -/
def effectiveMax (max_rows : Option Nat) (configMax : Nat) : Nat :=
  match max_rows with
  | some m => if m = 0 then configMax else m
  | none => configMax

/-- `LakebasePool.execute_query` after a successful execute: the cursor
either has a result set (`cur.description` truthy, modelled as
`some resultSet`) — then `fetchmany(effective_max)` caps the rows — or it
does not, and `[{"affected_rows": cur.rowcount}]` is returned. -/
def execute_query (max_rows : Option Nat) (configMax : Nat)
    (resultSet : Option (List α)) (rowcount : Int) : QueryResult α :=
  match resultSet with
  | some rs => .rows (rs.take (effectiveMax max_rows configMax))
  | none => .affected rowcount

/-- `LakebasePool.execute_readonly` after a successful execute inside the
read-only transaction: the same row cap, but `[]` (no affected-row
marker) when there is no result set. -/
def execute_readonly (max_rows : Option Nat) (configMax : Nat)
    (resultSet : Option (List α)) (rowcount : Int) : QueryResult α :=
  match resultSet with
  | some rs => .rows (rs.take (effectiveMax max_rows configMax))
  | none => .rows []

/-! ### Helper lemmas -/

/-- `List.find?` returns the element at the first index whose predicate
holds, when everything before that index fails it. -/
lemma find?_eq_get_of_take {α : Type} (p : α → Bool) :
    ∀ (l : List α) (i : Nat) (hi : i < l.length),
      p (l.get ⟨i, hi⟩) = true →
      (∀ x ∈ l.take i, p x = false) →
      l.find? p = some (l.get ⟨i, hi⟩) := by
  intro l
  induction l with
  | nil => intro i hi; simp at hi
  | cons a tl ih =>
      intro i hi hp hbefore
      cases i with
      | zero =>
          simp only [List.get] at hp
          rw [List.find?_cons_of_pos _ hp]
          rfl
      | succ k =>
          have ha : p a = false := hbefore a (by simp [List.take_succ_cons])
          rw [List.find?_cons_of_neg _ (by simp [ha])]
          have := ih k (by simpa using hi) (by simpa using hp)
            (fun x hx => hbefore x (by simp [List.take_succ_cons, hx]))
          simpa using this

/-- `List.find?` succeeds whenever some member satisfies the predicate. -/
lemma find?_isSome_of_mem {α : Type} (p : α → Bool) :
    ∀ (l : List α) (x : α), x ∈ l → p x = true → ∃ y, l.find? p = some y := by
  intro l
  induction l with
  | nil => intro x hx; simp at hx
  | cons a tl ih =>
      intro x hx hp
      by_cases ha : p a = true
      · exact ⟨a, List.find?_cons_of_pos _ ha⟩
      · have hxa : x ≠ a := fun h => ha (h ▸ hp)
        have hxt : x ∈ tl := by
          rcases List.mem_cons.mp hx with h | h
          · exact absurd h hxa
          · exact h
        obtain ⟨y, hy⟩ := ih x hxt hp
        exact ⟨y, by rw [List.find?_cons_of_neg _ (by simpa using ha)]; exact hy⟩

/-- Every statement type occurs in the alphabetically ordered list. -/
lemma mem_valueOrderedTypes (t : SQLStatementType) : t ∈ valueOrderedTypes := by
  cases t <;> simp [valueOrderedTypes]

/-- The canonical list is sorted under the lexicographic string order. -/
lemma valueOrder_pairwise_sorted :
    List.Pairwise (fun a b => lexLe a b = true)
      (valueOrderedTypes.map SQLStatementType.value) := by decide

/-- The regex fallback never matches input that strips to nothing. -/
lemma regexFallback_strip_empty (sql : String) (h : pyStrip sql = "") :
    regexFallback sql = none := by
  unfold regexFallback
  rw [h]
  rfl

/-! ### C1 -/

/-- C1.  If the classified type list is non-empty and some type is outside
the governor's allowed set, `check` denies, reports the first disallowed
type in statement order, and its message names that type and lists the
allowed set's values, alphabetically sorted, exactly and without
duplicates. -/
theorem check_denies_first_disallowed_type
    (g : SQLGovernor) (types : List SQLStatementType)
    (i : Nat) (hi : i < types.length)
    (hbad : types.get ⟨i, hi⟩ ∉ g.allowed)
    (hfirst : ∀ t ∈ types.take i, t ∈ g.allowed) :
    ∃ l : List String,
      List.Pairwise (fun a b => lexLe a b = true) l ∧
      l.Nodup ∧
      (∀ s, s ∈ l ↔ ∃ u ∈ g.allowed, u.value = s) ∧
      g.check types =
        { allowed := false,
          statement_type := some (types.get ⟨i, hi⟩),
          error_message := some ("Statement type " ++ squote ++
            (types.get ⟨i, hi⟩).value ++ squote ++
            " is not allowed. Permitted types: " ++
            String.intercalate ", " l),
          parsed_types := types } := by
  refine ⟨sortedAllowedValues g.allowed, ?_, ?_, ?_, ?_⟩
  · exact valueOrder_pairwise_sorted.sublist
      ((List.filter_sublist _).map SQLStatementType.value)
  · have hnodup : (valueOrderedTypes.map SQLStatementType.value).Nodup := by decide
    exact hnodup.sublist ((List.filter_sublist _).map SQLStatementType.value)
  · intro s
    constructor
    · intro hs
      obtain ⟨u, hu, hv⟩ := List.mem_map.mp hs
      refine ⟨u, ?_, hv⟩
      have := (List.mem_filter.mp hu).2
      simpa using this
    · rintro ⟨u, hu, hv⟩
      exact List.mem_map.mpr ⟨u,
        List.mem_filter.mpr ⟨mem_valueOrderedTypes u, by simpa using hu⟩, hv⟩
  · have hne : types.isEmpty = false := by
      cases types with
      | nil => simp at hi
      | cons a tl => rfl
    have hfind : types.find? (fun t => !(decide (t ∈ g.allowed)))
        = some (types.get ⟨i, hi⟩) := by
      apply find?_eq_get_of_take
      · simpa using hbad
      · intro x hx
        simpa using hfirst x hx
    simp [SQLGovernor.check, hne, hfind, denyMessage]

/-- Witness for C1: the `read_only` governor on `[select, drop]` denies,
reporting `drop` and the sorted allowed values. -/
theorem check_denies_first_disallowed_type_witness :
    ∃ l : List String,
      List.Pairwise (fun a b => lexLe a b = true) l ∧
      l.Nodup ∧
      (∀ s, s ∈ l ↔ ∃ u ∈ (SQLGovernor.mk readOnlyProfile).allowed, u.value = s) ∧
      (SQLGovernor.mk readOnlyProfile).check [.select, .drop] =
        { allowed := false,
          statement_type := some .drop,
          error_message := some ("Statement type " ++ squote ++
            SQLStatementType.value .drop ++ squote ++
            " is not allowed. Permitted types: " ++
            String.intercalate ", " l),
          parsed_types := [.select, .drop] } :=
  check_denies_first_disallowed_type (SQLGovernor.mk readOnlyProfile)
    [.select, .drop] 1 (by decide) (by decide) (by decide)

/-! ### C2 -/

/-- C2.  On a multi-statement type list, `check` denies whenever any
constituent type is outside the allowed set, regardless of how many
earlier statements were allowed. -/
theorem check_denies_any_disallowed
    (g : SQLGovernor) (types : List SQLStatementType)
    (t : SQLStatementType) (hmem : t ∈ types) (hbad : t ∉ g.allowed) :
    (g.check types).allowed = false := by
  have hne : types.isEmpty = false := by
    cases types with
    | nil => simp at hmem
    | cons a tl => rfl
  obtain ⟨y, hy⟩ := find?_isSome_of_mem (fun t => !(decide (t ∈ g.allowed)))
    types t hmem (by simpa using hbad)
  simp [SQLGovernor.check, hne, hy]

/-- Witness for C2: the analyst governor denies `[select, insert, drop]`
although the first two statements are allowed. -/
theorem check_denies_any_disallowed_witness :
    ((SQLGovernor.mk analystProfile).check [.select, .insert, .drop]).allowed
      = false :=
  check_denies_any_disallowed (SQLGovernor.mk analystProfile)
    [.select, .insert, .drop] .drop (by decide) (by decide)

/-! ### C3 -/

/-- C3.  Blank or whitespace-only input and a lone statement separator
classify to the empty list (on every parser outcome sqlglot produces for
such input: `ParseError`, no statements, or only `None` statements), and
an empty classification makes `check` deny with the generic
could-not-determine message. -/
theorem classify_blank_empty_check_denies
    (sql : String) (hsql : pyStrip sql = "" ∨ sql = ";")
    (pr : Except Unit (List (Option ParsedStmt)))
    (hpr : pr = Except.error () ∨
      ∃ stmts, pr = Except.ok stmts ∧ ∀ s ∈ stmts, s = none)
    (g : SQLGovernor) :
    classifyFrom pr sql = [] ∧
    g.check (classifyFrom pr sql) =
      { allowed := false,
        error_message := some "Could not determine SQL statement type." } := by
  have hempty : classifyFrom pr sql = [] := by
    rcases hpr with hpr | ⟨stmts, hpr, hnone⟩
    · subst hpr
      have hfb : regexFallback sql = none := by
        rcases hsql with h | h
        · exact regexFallback_strip_empty sql h
        · subst h; decide
      simp [classifyFrom, hfb]
    · subst hpr
      simp only [classifyFrom]
      rw [List.filterMap_eq_nil_iff]
      intro s hs
      rw [hnone s hs]
  refine ⟨hempty, ?_⟩
  rw [hempty]
  rfl

/-- Witness for C3: the empty string on the `ParseError` outcome. -/
theorem classify_blank_empty_check_denies_witness :
    classifyFrom (Except.error ()) "" = [] ∧
    (SQLGovernor.mk readOnlyProfile).check (classifyFrom (Except.error ()) "") =
      { allowed := false,
        error_message := some "Could not determine SQL statement type." } :=
  classify_blank_empty_check_denies "" (Or.inl (by decide))
    (Except.error ()) (Or.inl rfl) (SQLGovernor.mk readOnlyProfile)

/-! ### C10 -/

/-- C10.  When the parser rejects the whole input, `classify` applies the
regex fallback to the entire input once, so it yields at most one type,
and any type it yields is the fallback's single leading-keyword match. -/
theorem classify_parse_error_single_type
    (sql : String) (pr : Except Unit (List (Option ParsedStmt)))
    (hpr : pr = Except.error ()) :
    classifyFrom pr sql = (regexFallback sql).toList ∧
    (classifyFrom pr sql).length ≤ 1 ∧
    (∀ t, t ∈ classifyFrom pr sql → regexFallback sql = some t) := by
  subst hpr
  cases h : regexFallback sql <;> simp [classifyFrom, h]

/-- Witness for C10: an unparseable two-statement batch classifies by its
leading `SELECT` keyword only. -/
theorem classify_parse_error_single_type_witness :
    classifyFrom (Except.error ()) "SELECT 1; DROP TABLE t" =
      [SQLStatementType.select] ∧
    (classifyFrom (Except.error ()) "SELECT 1; DROP TABLE t").length ≤ 1 := by
  have h := classify_parse_error_single_type "SELECT 1; DROP TABLE t"
    (Except.error ()) rfl
  exact ⟨h.1.trans (by decide), h.2.1⟩

/-! ### C4 -/

/-- Counterexample for C4: on the parser-rejection path (the regex
fallback the spec describes as CTE-aware), a CTE wrapping an INSERT whose
CTE body contains a SELECT keyword classifies as `select`, not `insert`:
the `WITH ... SELECT` pattern is tried before `WITH ... INSERT` and its
`.*` matches anywhere. -/
theorem cte_insert_fallback_classifies_select :
    classifyFrom (Except.error ())
        "WITH d AS (SELECT 1) INSERT INTO t VALUES (2" =
      [SQLStatementType.select] ∧
    [SQLStatementType.select] ≠ [SQLStatementType.insert] := by
  constructor
  · decide
  · decide

/-- A character list with `['W', 'I', 'T', 'H']` as a prefix decomposes. -/
lemma cons4_of_prefix_WITH : ∀ (l : List Char),
    List.isPrefixOf ['W', 'I', 'T', 'H'] l = true →
    ∃ rest, l = 'W' :: 'I' :: 'T' :: 'H' :: rest
  | a :: b :: c :: d :: rest, h => by
      simp only [List.isPrefixOf, Bool.and_eq_true, beq_iff_eq] at h
      obtain ⟨h1, h2, h3, h4, -⟩ := h
      subst h1; subst h2; subst h3; subst h4
      exact ⟨rest, rfl⟩
  | [], h => by simp [List.isPrefixOf] at h
  | [_], h => by simp [List.isPrefixOf] at h
  | [_, _], h => by simp [List.isPrefixOf] at h
  | [_, _, _], h => by simp [List.isPrefixOf] at h

/-- On any input whose stripped uppercase form starts with `WITH` at a
word boundary, none of the 17 leading-keyword patterns can match (none
begins with `W`-`I`-`T`-`H`), so the fallback reduces to the four `WITH`
patterns tried in the order select, insert, update, delete. -/
lemma regexFallback_with (s : String)
    (hw : matchesAtStart "WITH".toList (pyUpperChars (pyStrip s)) = true) :
    regexFallback s =
      (if matchesWithPattern "SELECT".toList (pyUpperChars (pyStrip s)) then
        some SQLStatementType.select
      else if matchesWithPattern "INSERT".toList (pyUpperChars (pyStrip s)) then
        some SQLStatementType.insert
      else if matchesWithPattern "UPDATE".toList (pyUpperChars (pyStrip s)) then
        some SQLStatementType.update
      else if matchesWithPattern "DELETE".toList (pyUpperChars (pyStrip s)) then
        some SQLStatementType.delete
      else none) := by
  have hpre : List.isPrefixOf ['W', 'I', 'T', 'H'] (pyUpperChars (pyStrip s)) = true := by
    have h := (Bool.and_eq_true _ _).mp hw
    exact h.1
  obtain ⟨rest, hrest⟩ := cons4_of_prefix_WITH _ hpre
  unfold regexFallback
  rw [hrest]
  rfl

/-- C4 amended.  When the parser produces the mutating root node
(`exp.Insert`/`exp.Update`/`exp.Delete`, as it does for a parseable CTE
wrapping a mutating statement), `classify` yields the mutating type — for
every input and every rendering.  On the regex-fallback path, for every
input starting with `WITH` at a word boundary: a word-bounded `SELECT`
anywhere after `WITH` classifies it as select; with no such `SELECT`, a
word-bounded `INSERT` (then `UPDATE`, then `DELETE`) gives the mutating
type; and a mutating fallback result can only arise when no word-bounded
`SELECT` occurs. -/
theorem cte_classification_by_path (sql r₁ r₂ r₃ : String) :
    classifyFrom (Except.ok [some ⟨NodeKind.insertNode, r₁⟩]) sql =
      [SQLStatementType.insert] ∧
    classifyFrom (Except.ok [some ⟨NodeKind.updateNode, r₂⟩]) sql =
      [SQLStatementType.update] ∧
    classifyFrom (Except.ok [some ⟨NodeKind.deleteNode, r₃⟩]) sql =
      [SQLStatementType.delete] ∧
    ∀ s : String,
      matchesAtStart "WITH".toList (pyUpperChars (pyStrip s)) = true →
      (scanForWord "SELECT".toList 'H' ((pyUpperChars (pyStrip s)).drop 4) = true →
        regexFallback s = some SQLStatementType.select) ∧
      (scanForWord "SELECT".toList 'H' ((pyUpperChars (pyStrip s)).drop 4) = false →
       scanForWord "INSERT".toList 'H' ((pyUpperChars (pyStrip s)).drop 4) = true →
        regexFallback s = some SQLStatementType.insert) ∧
      (scanForWord "SELECT".toList 'H' ((pyUpperChars (pyStrip s)).drop 4) = false →
       scanForWord "INSERT".toList 'H' ((pyUpperChars (pyStrip s)).drop 4) = false →
       scanForWord "UPDATE".toList 'H' ((pyUpperChars (pyStrip s)).drop 4) = true →
        regexFallback s = some SQLStatementType.update) ∧
      (scanForWord "SELECT".toList 'H' ((pyUpperChars (pyStrip s)).drop 4) = false →
       scanForWord "INSERT".toList 'H' ((pyUpperChars (pyStrip s)).drop 4) = false →
       scanForWord "UPDATE".toList 'H' ((pyUpperChars (pyStrip s)).drop 4) = false →
       scanForWord "DELETE".toList 'H' ((pyUpperChars (pyStrip s)).drop 4) = true →
        regexFallback s = some SQLStatementType.delete) ∧
      ((regexFallback s = some SQLStatementType.insert ∨
        regexFallback s = some SQLStatementType.update ∨
        regexFallback s = some SQLStatementType.delete) →
        scanForWord "SELECT".toList 'H' ((pyUpperChars (pyStrip s)).drop 4) = false) := by
  refine ⟨rfl, rfl, rfl, ?_⟩
  intro s hw
  have hrw := regexFallback_with s hw
  have hpos : ∀ kw : List Char,
      scanForWord kw 'H' ((pyUpperChars (pyStrip s)).drop 4) = true →
      matchesWithPattern kw (pyUpperChars (pyStrip s)) = true := by
    intro kw hk
    unfold matchesWithPattern
    rw [hw, hk]
    rfl
  have hneg : ∀ kw : List Char,
      scanForWord kw 'H' ((pyUpperChars (pyStrip s)).drop 4) = false →
      matchesWithPattern kw (pyUpperChars (pyStrip s)) = false := by
    intro kw hk
    unfold matchesWithPattern
    rw [hk]
    exact Bool.and_false _
  have hnegP : ∀ kw : List Char,
      scanForWord kw 'H' ((pyUpperChars (pyStrip s)).drop 4) = false →
      ¬(matchesWithPattern kw (pyUpperChars (pyStrip s)) = true) := by
    intro kw hk
    rw [hneg _ hk]
    exact Bool.false_ne_true
  refine ⟨?_, ?_, ?_, ?_, ?_⟩
  · intro hsel
    rw [hrw, if_pos (hpos _ hsel)]
  · intro hsel hins
    rw [hrw, if_neg (hnegP _ hsel), if_pos (hpos _ hins)]
  · intro hsel hins hupd
    rw [hrw, if_neg (hnegP _ hsel), if_neg (hnegP _ hins),
      if_pos (hpos _ hupd)]
  · intro hsel hins hupd hdel
    rw [hrw, if_neg (hnegP _ hsel), if_neg (hnegP _ hins),
      if_neg (hnegP _ hupd), if_pos (hpos _ hdel)]
  · intro hres
    cases hsel : scanForWord "SELECT".toList 'H' ((pyUpperChars (pyStrip s)).drop 4) with
    | false => rfl
    | true =>
        rw [hrw, if_pos (hpos _ hsel)] at hres
        simp at hres

/-- Witness for C4's amended theorem: a CTE over `TABLE` (no SELECT
keyword anywhere) falls back to `insert`; one whose body contains
`SELECT` falls back to `select`. -/
theorem cte_classification_by_path_witness :
    regexFallback "WITH d AS (TABLE s) INSERT INTO t VALUES (1)" =
      some SQLStatementType.insert ∧
    regexFallback "WITH d AS (SELECT 1) INSERT INTO t VALUES (2)" =
      some SQLStatementType.select := by
  have h1 := (cte_classification_by_path "x" "r" "r" "r").2.2.2
    "WITH d AS (TABLE s) INSERT INTO t VALUES (1)" (by decide)
  have h2 := (cte_classification_by_path "x" "r" "r" "r").2.2.2
    "WITH d AS (SELECT 1) INSERT INTO t VALUES (2)" (by decide)
  exact ⟨h1.2.1 (by decide) (by decide), h2.1 (by decide)⟩

/-! ### C5 -/

/-- C5.  `is_tool_allowed`: a denied name is refused even when also
allowed; with a non-empty allow set any name outside it (in particular an
unknown tool) is refused; otherwise the name is admitted, so the
empty-both policy admits every name. -/
theorem is_tool_allowed_spec (p : ToolAccessPolicy) (name : String) :
    (name ∈ p.denied_tools → p.is_tool_allowed name = false) ∧
    (name ∉ p.denied_tools → p.allowed_tools ≠ ∅ → name ∉ p.allowed_tools →
      p.is_tool_allowed name = false) ∧
    (name ∉ p.denied_tools → (p.allowed_tools = ∅ ∨ name ∈ p.allowed_tools) →
      p.is_tool_allowed name = true) ∧
    ToolAccessPolicy.is_tool_allowed ⟨∅, ∅⟩ name = true := by
  refine ⟨?_, ?_, ?_, by simp [ToolAccessPolicy.is_tool_allowed]⟩
  · intro h
    have hcard : p.denied_tools.card ≠ 0 := Finset.card_ne_zero_of_mem h
    simp [ToolAccessPolicy.is_tool_allowed, h, hcard]
  · intro h1 h2 h3
    have hcard : p.allowed_tools.card ≠ 0 := by
      intro hc
      exact h2 (Finset.card_eq_zero.mp hc)
    simp [ToolAccessPolicy.is_tool_allowed, h1, h3, hcard]
  · intro h1 h2
    rcases h2 with h2 | h2
    · simp [ToolAccessPolicy.is_tool_allowed, h1, h2]
    · simp [ToolAccessPolicy.is_tool_allowed, h1, h2]

/-- Witness for C5: a name in both sets is denied; the empty-both policy
admits a name. -/
theorem is_tool_allowed_spec_witness :
    ToolAccessPolicy.is_tool_allowed
        ⟨{"lakebase_execute_query"}, {"lakebase_execute_query"}⟩
        "lakebase_execute_query" = false ∧
    ToolAccessPolicy.is_tool_allowed ⟨∅, ∅⟩ "lakebase_execute_query" = true :=
  ⟨(is_tool_allowed_spec
      ⟨{"lakebase_execute_query"}, {"lakebase_execute_query"}⟩
      "lakebase_execute_query").1 (by decide),
   (is_tool_allowed_spec ⟨∅, ∅⟩ "lakebase_execute_query").2.2.2⟩

/-! ### C6 -/

/-- C6.  With none of the eight governance fields set, building the
policy is in legacy mode: write flag false gives the `read_only` SQL
profile, write flag true gives all 17 statement types, and in both cases
the permissive (empty allow and deny) tool policy. -/
theorem legacy_mode_policy (c : GovernanceConfig)
    (h1 : c.sql_profile = none) (h2 : c.sql_allowed_types = none)
    (h3 : c.sql_denied_types = none) (h4 : c.tool_profile = none)
    (h5 : c.tool_allowed_categories = none)
    (h6 : c.tool_denied_categories = none)
    (h7 : c.tool_allowed_tools = none) (h8 : c.tool_denied_tools = none) :
    (c.allow_write = false →
      build_governance_policy c =
        { sql_allowed := readOnlyProfile, tool_policy := ⟨∅, ∅⟩ }) ∧
    (c.allow_write = true →
      build_governance_policy c =
        { sql_allowed := allStatementTypes, tool_policy := ⟨∅, ∅⟩ }) ∧
    allStatementTypes.card = 17 := by
  have hgov : c.has_governance = false := by
    simp [GovernanceConfig.has_governance, h1, h2, h3, h4, h5, h6, h7, h8,
      optStrTruthy, optListTruthy]
  refine ⟨?_, ?_, by decide⟩
  · intro hw
    simp [build_governance_policy, hgov, hw]
  · intro hw
    simp [build_governance_policy, hgov, hw]

/-- Witness for C6: the all-`none` config under both write-flag values. -/
theorem legacy_mode_policy_witness :
    build_governance_policy ⟨none, none, none, none, none, none, none, none, false⟩ =
      { sql_allowed := readOnlyProfile, tool_policy := ⟨∅, ∅⟩ } ∧
    build_governance_policy ⟨none, none, none, none, none, none, none, none, true⟩ =
      { sql_allowed := allStatementTypes, tool_policy := ⟨∅, ∅⟩ } :=
  ⟨(legacy_mode_policy ⟨none, none, none, none, none, none, none, none, false⟩
      rfl rfl rfl rfl rfl rfl rfl rfl).1 rfl,
   ((legacy_mode_policy ⟨none, none, none, none, none, none, none, none, true⟩
      rfl rfl rfl rfl rfl rfl rfl rfl).2).1 rfl⟩

/-! ### C7 -/

/-- If every attempt in the window fails, the loop exhausts the budget,
keeps the last error, and sleeps the backoff delay once per attempt. -/
lemma runAttempts_all_fail {α ε : Type}
    (tryA : Nat → Except ε α) (delay : Nat → ℚ) (err : Nat → ε) :
    ∀ (rem i : Nat) (last : Option ε),
      (∀ j, j < rem → tryA (i + j) = Except.error (err (i + j))) →
      runAttempts tryA delay i rem last =
        (.exhausted (if rem = 0 then last else some (err (i + rem - 1))),
         (List.range' i rem).map delay) := by
  intro rem
  induction rem with
  | zero => intro i last _; simp [runAttempts]
  | succ k ih =>
      intro i last h
      have h0 : tryA i = Except.error (err i) := by simpa using h 0 (by omega)
      have hrec := ih (i + 1) (some (err i)) (fun j hj => by
        have hidx : i + 1 + j = i + (j + 1) := by omega
        rw [hidx]
        exact h (j + 1) (by omega))
      rw [runAttempts, h0]
      dsimp only
      rw [hrec]
      cases k with
      | zero => simp [List.range']
      | succ m =>
          have hidx : i + 1 + (m + 1) - 1 = i + (m + 1 + 1) - 1 := by omega
          simp [List.range', hidx]

/-- An exhausted loop means every attempt in the window failed. -/
lemma runAttempts_exhausted_all_fail {α ε : Type}
    (tryA : Nat → Except ε α) (delay : Nat → ℚ) :
    ∀ (rem i : Nat) (last le' : Option ε) (ds : List ℚ),
      runAttempts tryA delay i rem last = (.exhausted le', ds) →
      ∀ j, j < rem → ∃ e, tryA (i + j) = Except.error e := by
  intro rem
  induction rem with
  | zero => intro i last le' ds _ j hj; omega
  | succ k ih =>
      intro i last le' ds h j hj
      cases htry : tryA i with
      | ok a => rw [runAttempts, htry] at h; simp at h
      | error e =>
          rw [runAttempts, htry] at h
          cases j with
          | zero => exact ⟨e, by simpa using htry⟩
          | succ m =>
              rcases hrun : runAttempts tryA delay (i + 1) k (some e) with ⟨r2, ds2⟩
              have hr2 : r2 = .exhausted le' := by
                have := congrArg Prod.fst h
                simpa [hrun] using this
              have hidx : i + (m + 1) = i + 1 + m := by omega
              rw [hidx]
              exact ih (i + 1) (some e) le' ds2 (by rw [hrun, hr2]) m (by omega)

/-- C7.  With every attempt failing transiently, acquisition raises the
aggregated error carrying the last cause after exactly the configured
number of attempts, having slept `min(base_delay * 2^i, max_delay)` after
failed attempt `i`; these delays are non-decreasing and bounded by
`max_delay`; and exhaustion can only happen when every attempt failed. -/
theorem connection_backoff_exhaustion {α ε : Type}
    (cfg : RetryConfig) (tryA : Nat → Except ε α) (err : Nat → ε)
    (hpos : 0 < cfg.attempts) (hbase : 0 ≤ cfg.baseDelay)
    (hfail : ∀ i, i < cfg.attempts → tryA i = Except.error (err i)) :
    acquireConnection cfg tryA =
      (AcquireResult.exhausted (some (err (cfg.attempts - 1))),
       (List.range cfg.attempts).map
         (fun i => min (cfg.baseDelay * 2 ^ i) cfg.maxDelay)) ∧
    (∀ i j : Nat, i ≤ j →
      min (cfg.baseDelay * 2 ^ i) cfg.maxDelay ≤
        min (cfg.baseDelay * 2 ^ j) cfg.maxDelay) ∧
    (∀ i : Nat, min (cfg.baseDelay * 2 ^ i) cfg.maxDelay ≤ cfg.maxDelay) ∧
    (∀ (tryB : Nat → Except ε α) (le' : Option ε) (ds : List ℚ),
      acquireConnection cfg tryB = (.exhausted le', ds) →
      ∀ i, i < cfg.attempts → ∃ e, tryB i = Except.error e) := by
  refine ⟨?_, ?_, fun i => min_le_right _ _, ?_⟩
  · have h := runAttempts_all_fail tryA (backoffDelay cfg) err cfg.attempts 0
      none (fun j hj => by simpa using hfail j hj)
    rw [acquireConnection, h]
    have hne : cfg.attempts ≠ 0 := by omega
    rw [List.range_eq_range']
    simp [hne, backoffDelay]
  · intro i j hij
    refine min_le_min ?_ le_rfl
    exact mul_le_mul_of_nonneg_left
      (pow_le_pow_right₀ one_le_two hij) hbase
  · intro tryB le' ds h i hi
    have := runAttempts_exhausted_all_fail tryB (backoffDelay cfg)
      cfg.attempts 0 none le' ds h i hi
    simpa using this

/-- Witness for C7: two attempts, base delay 1, max delay 4: delays 1 and
2, exhaustion with the last error after both attempts. -/
theorem connection_backoff_exhaustion_witness :
    acquireConnection (RetryConfig.mk 2 1 4)
        (fun _ => (Except.error 0 : Except Nat Unit)) =
      (AcquireResult.exhausted (some 0), [1, 2]) := by
  have h := (connection_backoff_exhaustion (RetryConfig.mk 2 1 4)
    (fun _ => (Except.error 0 : Except Nat Unit)) (fun _ => 0)
    (by decide) (by norm_num) (fun i _ => rfl)).1
  rw [h]
  norm_num [List.range_succ]

/-! ### C8 -/

/-- Counterexample for C8: `execute_readonly` on a statement with no
result set returns the empty row list, not an affected-row count. -/
theorem execute_readonly_no_affected_count :
    execute_readonly (α := Unit) none 1000 none 5 = QueryResult.rows [] ∧
    QueryResult.rows ([] : List Unit) ≠ QueryResult.affected 5 :=
  ⟨rfl, by decide⟩

/-- C8 amended.  Both execution paths cap a present result set at
`max_rows` (or the configured default when `max_rows` is `None` or `0`);
with no result set `execute_query` returns the single affected-row count
while `execute_readonly` returns an empty row list. -/
theorem query_row_cap_and_no_result {α : Type}
    (max_rows : Option Nat) (configMax : Nat) (rs : List α) (rowcount : Int) :
    execute_query max_rows configMax (some rs) rowcount =
      .rows (rs.take (effectiveMax max_rows configMax)) ∧
    execute_readonly max_rows configMax (some rs) rowcount =
      .rows (rs.take (effectiveMax max_rows configMax)) ∧
    execute_query (α := α) max_rows configMax none rowcount = .affected rowcount ∧
    execute_readonly (α := α) max_rows configMax none rowcount = .rows [] ∧
    (∀ m, max_rows = some m → m ≠ 0 →
      (rs.take (effectiveMax max_rows configMax)).length ≤ m) ∧
    (max_rows = none →
      (rs.take (effectiveMax max_rows configMax)).length ≤ configMax) := by
  refine ⟨rfl, rfl, rfl, rfl, ?_, ?_⟩
  · intro m hm hm0
    subst hm
    simp [effectiveMax, hm0, List.length_take]
  · intro hm
    subst hm
    simp [effectiveMax, List.length_take]

/-- Witness for C8: default cap 2 truncates a 3-row result set; a
no-result-set readonly call yields the empty list. -/
theorem query_row_cap_and_no_result_witness :
    execute_query (α := Nat) none 2 (some [5, 6, 7]) 9 =
      QueryResult.rows [5, 6] ∧
    execute_readonly (α := Nat) none 2 none 9 = QueryResult.rows [] := by
  have h := query_row_cap_and_no_result (α := Nat) none 2 [5, 6, 7] 9
  exact ⟨h.1.trans (by decide), h.2.2.2.1⟩

/-! ### C9 -/

/-- C9 (code extent).  The registry as shipped holds 13 categories naming
27 tools in total, pairwise disjoint (no tool in two categories), with no
`uc_governance` category — contradicting the 14/31 extent asserted by the
claim and by the repository's own `test_tool_governance.py`. -/
theorem tool_registry_extent :
    TOOL_CATEGORIES.length = 13 ∧
    ((TOOL_CATEGORIES.map (fun p => p.2.length)).sum = 27) ∧
    (TOOL_CATEGORIES.map Prod.snd).flatten.Nodup ∧
    TOOL_CATEGORIES.lookup "uc_governance" = none ∧
    ¬(TOOL_CATEGORIES.length = 14 ∧
      (TOOL_CATEGORIES.map (fun p => p.2.length)).sum = 31) := by
  refine ⟨by decide, by decide, by decide, by decide, by decide⟩

end LakebaseMCP
